import Mathlib

/- Verification of the field-descriptor, collection, mapping and configuration
subsystems of the eiktobel resource-modeling library.  TypeScript classes are
shallowly embedded as Lean structures: class fields become structure fields,
methods become functions, and JavaScript runtime values are embedded as
`JsValue`.  Collaborator modules that are imported but not part of the sources
(validation, inference, checks, interpreters) are modelled from the spec and
marked as such. -/

/-- Embedding of the JavaScript values the library manipulates: undefined and
null are first-class values, so absence (undefined) and null can be told apart
exactly as the strict comparisons in the source do. -/
inductive JsValue where
  | undef
  | null
  | bool (b : Bool)
  | num (n : Int)
  | str (s : String)
deriving DecidableEq

/-- Modelled from the spec: the validation module is not part of the sources;
validation errors are returned as a structured result from `validate`, never
thrown, so a result is either valid or invalid with a message. -/
inductive ValidationResult where
  | valid
  | invalid (message : String)
deriving DecidableEq

/-- Modelled from the spec: the `invalid` helper of the validation module
builds an invalid result carrying an error message. -/
def invalid (message : String) : ValidationResult :=
  ValidationResult.invalid message

/-- Modelled from the spec: `Checks` validates a value against one or more
rules; it is a stateless strategy, embedded as its validation function. -/
structure Checks where
  validate : JsValue → ValidationResult

/-- Modelled from the spec: the no-op variant of `Checks` always succeeds. -/
def NoChecks : Checks :=
  { validate := fun _ => ValidationResult.valid }

/-- Modelled from the spec: `Likelihood` (from the inference module) is a
three-way confidence value; `explicit` and `implicit score` are the
constructors used by `AnyField.isKey`. -/
inductive Likelihood where
  | explicit
  | implicit (score : Nat)
  | absent
deriving DecidableEq

/-- Modelled from the spec: the key representation reported by key-capable
field types. -/
inductive KeyKind where
  | integer
  | text
deriving DecidableEq

/-- Modelled from the spec: caller-supplied naming signals used by the
implicit-id heuristic; its internal shape does not matter to the claims, which
quantify over the heuristic itself. -/
structure FieldRoleHints where
  fieldName : String

/-- Embedding of the internal `BlankValue` union of the field module. -/
inductive BlankValue where
  | unspecified
  | explicit (value : JsValue)

/-- Embedding of `explicitBlankValue`. -/
def explicitBlankValue (value : JsValue) : BlankValue :=
  BlankValue.explicit value

/-- Embedding of `FieldOpts`: every option may be left undefined. -/
structure FieldOpts where
  blankValue : Option BlankValue := none
  isReadable : Option Bool := none
  isWritable : Option Bool := none
  useAsKey : Option Bool := none
  isNullable : Option Bool := none
  isOptional : Option Bool := none
  checks : Option Checks := none

/-- Embedding of the state of an `AnyField` instance.  The private class
fields keep their names; `defaultBlankValue` and `keyKind` are the abstract or
overridable members supplied by the concrete subtype, embedded as data (the
base class `keyKind` getter returns null, that is `none`). -/
structure AnyField where
  _blankValue : BlankValue
  _isReadable : Bool
  _isWritable : Bool
  _isNullable : Bool
  _isOptional : Bool
  _useAsKey : Bool
  _checks : Checks
  defaultBlankValue : JsValue
  keyKind : Option KeyKind

/-- Embedding of the nullish-coalescing chains of the `AnyField` constructor:
first the option, else the copied value, else the default. -/
def coalesce {α : Type} (a b : Option α) (d : α) : α :=
  match a with
  | some x => x
  | none =>
    match b with
    | some y => y
    | none => d

/-- Embedding of the protected `AnyField` constructor: each option is taken
from `options`, else from `copyFrom`, else from the documented default.  The
last two arguments are the members fixed by the concrete subtype. -/
def mkAnyField (copyFrom : Option AnyField) (options : Option FieldOpts)
    (dbv : JsValue) (kk : Option KeyKind) : AnyField where
  _blankValue :=
    coalesce (options.bind FieldOpts.blankValue) (copyFrom.map AnyField._blankValue)
      BlankValue.unspecified
  _isReadable :=
    coalesce (options.bind FieldOpts.isReadable) (copyFrom.map AnyField._isReadable) true
  _isWritable :=
    coalesce (options.bind FieldOpts.isWritable) (copyFrom.map AnyField._isWritable) true
  _isNullable :=
    coalesce (options.bind FieldOpts.isNullable) (copyFrom.map AnyField._isNullable) false
  _isOptional :=
    coalesce (options.bind FieldOpts.isOptional) (copyFrom.map AnyField._isOptional) false
  _useAsKey :=
    coalesce (options.bind FieldOpts.useAsKey) (copyFrom.map AnyField._useAsKey) false
  _checks :=
    coalesce (options.bind FieldOpts.checks) (copyFrom.map AnyField._checks) NoChecks
  defaultBlankValue := dbv
  keyKind := kk

/-- Embedding of `cloneAsSelf`: the concrete subtype constructs a new instance
of itself copying from `this`, hence the subtype members are preserved. -/
def AnyField.cloneAsSelf (f : AnyField) (options : FieldOpts) : AnyField :=
  mkAnyField (some f) (some options) f.defaultBlankValue f.keyKind

/-- Embedding of the `blankValue` getter. -/
def AnyField.blankValue (f : AnyField) : JsValue :=
  match f._blankValue with
  | BlankValue.explicit v => v
  | BlankValue.unspecified => f.defaultBlankValue

/-- Embedding of the `isReadable` getter. -/
def AnyField.isReadable (f : AnyField) : Bool := f._isReadable

/-- Embedding of the `isWritable` getter. -/
def AnyField.isWritable (f : AnyField) : Bool := f._isWritable

/-- Embedding of the `isNullable` getter. -/
def AnyField.isNullable (f : AnyField) : Bool := f._isNullable

/-- Embedding of the `isOptional` getter. -/
def AnyField.isOptional (f : AnyField) : Bool := f._isOptional

/-- Embedding of `AnyField.isKey`; the implicit-id heuristic `isImplicitId`
lives in the inference module outside the sources, so it is passed as a
parameter and the claims quantify over it. -/
def AnyField.isKey (isImplicitId : FieldRoleHints → Likelihood) (f : AnyField)
    (hints : FieldRoleHints) : Likelihood :=
  if f._useAsKey then Likelihood.explicit
  else if f.keyKind = none then Likelihood.implicit 0
  else isImplicitId hints

/-- Embedding of `AnyField.validate`: the strict comparison against undefined
is the only absence test, and the optional branch still delegates to the
configured checks. -/
def AnyField.validate (f : AnyField) (value : JsValue) : ValidationResult :=
  if f._isOptional = true ∨ value ≠ JsValue.undef then f._checks.validate value
  else invalid ("Required value missing.")

/-- Embedding of the `withBlankValue` builder. -/
def AnyField.withBlankValue (f : AnyField) (value : JsValue) : AnyField :=
  f.cloneAsSelf { blankValue := some (explicitBlankValue value) }

/-- Embedding of the `readOnly` builder getter. -/
def AnyField.readOnly (f : AnyField) : AnyField :=
  f.cloneAsSelf { isWritable := some false, isReadable := some true }

/-- Embedding of the `writeOnly` builder getter. -/
def AnyField.writeOnly (f : AnyField) : AnyField :=
  f.cloneAsSelf { isWritable := some true, isReadable := some false }

/-- Embedding of the `asKey` builder getter. -/
def AnyField.asKey (f : AnyField) : AnyField :=
  f.cloneAsSelf { useAsKey := some true }

/-- Modelled from the spec: `optional` is abstract in `AnyField` and each
concrete field type supplies the widened implementation; per the spec every
builder operation returns a new descriptor with the option changed, preserving
all others via the copy chain. -/
def AnyField.optional (f : AnyField) : AnyField :=
  f.cloneAsSelf { isOptional := some true }

/-- The four builder operations named by the immutability claim, as data. -/
inductive BuilderOp where
  | withBlank (value : JsValue)
  | readOnlyOp
  | writeOnlyOp
  | asKeyOp

/-- The pure result of running one builder operation on a receiver state. -/
def applyBuilderOp : BuilderOp → AnyField → AnyField
  | BuilderOp.withBlank v, f => f.withBlankValue v
  | BuilderOp.readOnlyOp, f => f.readOnly
  | BuilderOp.writeOnlyOp, f => f.writeOnly
  | BuilderOp.asKeyOp, f => f.asKey

/-- Object-store embedding of a builder call: descriptors live in a store of
object states and `cloneAsSelf` allocates a fresh object; the method body only
reads the receiver (all class fields are declared readonly and assigned in the
constructor), so the call appends the clone and returns its address. -/
def allocBuilderOp (op : BuilderOp) (store : List AnyField) (f : AnyField) :
    List AnyField × Nat :=
  (store ++ [applyBuilderOp op f], store.length)

/-- A resource item as a JavaScript object: property names with values. -/
abbrev Item : Type := List (String × JsValue)

/-- Embedding of the property read on an item: a missing property reads as
undefined. -/
def getProp (item : Item) (key : String) : JsValue :=
  (List.lookup key item).getD JsValue.undef

/-- Embedding of a constructed `CollectionManager`: the constructor caches the
key property name and kind found by the descriptor interpreter (the
interpreter module is outside the sources, so managers are quantified over). -/
structure CollectionManager where
  _key : String
  _keyKind : KeyKind

/-- Embedding of the `key` getter of `CollectionManager`. -/
def CollectionManager.key (m : CollectionManager) : String := m._key

/-- Embedding of `CollectionManager.isNew`: a strict comparison of the key
property of the item with null. -/
def CollectionManager.isNew (m : CollectionManager) (item : Item) : Bool :=
  decide (getProp item m.key = JsValue.null)

/-- Modelled from the spec and the import: `JsonRequestBody` wraps the packed
payload into a JSON request body. -/
structure JsonRequestBody where
  payload : JsValue
deriving DecidableEq

/-- Embedding of the abstract `ValueMapper`: the abstract members are data and
`packValue` and `unpackValue` may throw, embedded as `Except`. -/
structure ValueMapper (T : Type) where
  expectedResponseType : String
  packValue : T → Except String JsValue
  unpackValue : JsValue → Except String T

/-- Embedding of `ValueMapper.pack`: wrap the packed value in a new
`JsonRequestBody`; an exception from `packValue` propagates. -/
def ValueMapper.pack {T : Type} (m : ValueMapper T) (value : T) :
    Except String JsonRequestBody :=
  (m.packValue value).map JsonRequestBody.mk

/-- Embedding of the `Config` interface, parameterized by the handler type
(`BadResponseHandler` is a function type external to this core). -/
structure Config (H : Type) where
  badResponseHandler : H

/-- Embedding of one entry of a `ConfigOverride`: a property override is a
replacement value or the reset sentinel; `none` means the property is not
overridden.  The sentinel is a distinguished value a handler can never be. -/
inductive ConfigOption (H : Type) where
  | value (v : H)
  | reset

/-- Embedding of a `ConfigOverride` for the single `Config` property. -/
abbrev ConfigOverride (H : Type) : Type := Option (ConfigOption H)

/-- Runtime configuration values: the built-in default or a `DecoratorConfig`
over a wrapped configuration. -/
inductive ConfigV (H : Type) where
  | base (c : Config H)
  | decorator (wrapped : ConfigV H) (overrides : ConfigOverride H)

/-- Embedding of `DecoratorConfig.overrideConfigProperty`: start from the
wrapped value, reset to the default on the sentinel, else take an explicit
override when present. -/
def overrideConfigProperty {H : Type} (defaultCfg : Config H) (wrappedValue : H)
    (option : ConfigOverride H) : H :=
  match option with
  | some ConfigOption.reset => defaultCfg.badResponseHandler
  | some (ConfigOption.value v) => v
  | none => wrappedValue

/-- Evaluation of the `badResponseHandler` getter of a configuration value;
`defaultCfg` is the module-level default configuration. -/
def ConfigV.badResponseHandler {H : Type} (defaultCfg : Config H) : ConfigV H → H
  | ConfigV.base c => c.badResponseHandler
  | ConfigV.decorator w o =>
    overrideConfigProperty defaultCfg (ConfigV.badResponseHandler defaultCfg w) o

/-- Embedding of the `GlobalConfig` singleton state. -/
structure GlobalConfig (H : Type) where
  _current : ConfigV H

/-- Embedding of the `GlobalConfig` constructor: starts at the default. -/
def GlobalConfig.init {H : Type} (defaultCfg : Config H) : GlobalConfig H :=
  { _current := ConfigV.base defaultCfg }

/-- Embedding of `GlobalConfig.set`: the new configuration decorates the
built-in default, not the previous active configuration. -/
def GlobalConfig.set {H : Type} (defaultCfg : Config H) (_g : GlobalConfig H)
    (options : ConfigOverride H) : GlobalConfig H :=
  { _current := ConfigV.decorator (ConfigV.base defaultCfg) options }

/-- Embedding of the `badResponseHandler` getter of `GlobalConfig`, which
delegates to the current configuration. -/
def GlobalConfig.badResponseHandler {H : Type} (defaultCfg : Config H)
    (g : GlobalConfig H) : H :=
  ConfigV.badResponseHandler defaultCfg g._current

/-- A concrete plain field as built by a string field factory: default blank
value is the empty string and the type is not key-capable. -/
def stringFieldExample : AnyField :=
  mkAnyField none none (JsValue.str "") none

/-- A concrete key-capable field with an integer key kind. -/
def intKeyFieldExample : AnyField :=
  mkAnyField none none (JsValue.num 0) (some KeyKind.integer)

/-- A field explicitly marked as key. -/
def keyMarkedFieldExample : AnyField :=
  stringFieldExample.asKey

/-- A checks strategy that rejects the absent value. -/
def rejectAbsentChecks : Checks :=
  { validate := fun v =>
      if v = JsValue.undef then ValidationResult.invalid ("Value is absent.")
      else ValidationResult.valid }

/-- An optional field configured with checks that reject the absent value. -/
def optionalRejectingField : AnyField :=
  (mkAnyField none (some { checks := some rejectAbsentChecks }) (JsValue.str "") none).optional

/-- Concrete hints for witnesses. -/
def hintsExample : FieldRoleHints := { fieldName := "id" }

/-- A concrete implicit-id heuristic for witnesses. -/
def impIdExample : FieldRoleHints → Likelihood := fun _ => Likelihood.implicit 5

/-- A concrete collection manager whose key property is named id. -/
def managerExample : CollectionManager :=
  { _key := "id", _keyKind := KeyKind.integer }

/-- The identity mapper on JavaScript values, for witnesses. -/
def idMapperExample : ValueMapper JsValue :=
  { expectedResponseType := "any",
    packValue := fun v => Except.ok v,
    unpackValue := fun v => Except.ok v }

/-- C1 counterexample: an optional field whose configured checks reject the
absent value makes `validate` of the absent value fail, so validation of an
absent optional value is not check-free and does not always succeed. -/
theorem c1_counterexample :
    AnyField.validate optionalRejectingField JsValue.undef
      = ValidationResult.invalid ("Value is absent.")
    ∧ AnyField.validate optionalRejectingField JsValue.undef ≠ ValidationResult.valid := by
  constructor
  · rfl
  · decide

/-- C1 (amended): for every field descriptor, after `optional` is applied,
`validate` of the absent value delegates to the configured checks applied to
the absent value, rather than trivially succeeding; it succeeds exactly when
the checks accept absence, as the default `NoChecks` does. -/
theorem c1_optional_validate_delegates (f : AnyField) :
    AnyField.validate (AnyField.optional f) JsValue.undef
      = f._checks.validate JsValue.undef := rfl

/-- C2: for every non-optional field descriptor, whatever its configured
checks, validating the absent value fails with the required-value-missing
error. -/
theorem c2_required_value_missing (f : AnyField) (h : AnyField.isOptional f = false) :
    AnyField.validate f JsValue.undef = invalid ("Required value missing.") := by
  have h' : f._isOptional = false := h
  simp [AnyField.validate, h']

/-- C2 witness at a concrete required field. -/
theorem c2_witness :
    AnyField.validate stringFieldExample JsValue.undef
      = invalid ("Required value missing.") :=
  c2_required_value_missing stringFieldExample rfl

/-- C3: `isKey` returns the explicit likelihood when the field is marked as
key; otherwise the implicit likelihood with score 0 when the field type cannot
represent a key; otherwise exactly the result of the implicit-id heuristic on
the hints. -/
theorem c3_isKey_dispatch (isImplicitId : FieldRoleHints → Likelihood)
    (f : AnyField) (hints : FieldRoleHints) :
    (f._useAsKey = true → AnyField.isKey isImplicitId f hints = Likelihood.explicit)
    ∧ (f._useAsKey = false → f.keyKind = none →
        AnyField.isKey isImplicitId f hints = Likelihood.implicit 0)
    ∧ (f._useAsKey = false → f.keyKind ≠ none →
        AnyField.isKey isImplicitId f hints = isImplicitId hints) := by
  refine ⟨fun h1 => ?_, fun h1 h2 => ?_, fun h1 h2 => ?_⟩
  · simp [AnyField.isKey, h1]
  · simp [AnyField.isKey, h1, h2]
  · simp [AnyField.isKey, h1, h2]

/-- C3 witness covering all three branches at concrete fields. -/
theorem c3_witness :
    AnyField.isKey impIdExample keyMarkedFieldExample hintsExample = Likelihood.explicit
    ∧ AnyField.isKey impIdExample stringFieldExample hintsExample = Likelihood.implicit 0
    ∧ AnyField.isKey impIdExample intKeyFieldExample hintsExample
        = impIdExample hintsExample :=
  ⟨(c3_isKey_dispatch impIdExample keyMarkedFieldExample hintsExample).1 rfl,
   (c3_isKey_dispatch impIdExample stringFieldExample hintsExample).2.1 rfl rfl,
   (c3_isKey_dispatch impIdExample intKeyFieldExample hintsExample).2.2 rfl (by decide)⟩

/-- C4: setting a handler override makes the global configuration return it; a
subsequent reset-to-default call returns the built-in default handler and not
the previously overridden one, because each call layers over the default. -/
theorem c4_globalConfig_layering {H : Type} (defaultCfg : Config H) (fn : H) :
    GlobalConfig.badResponseHandler defaultCfg
        (GlobalConfig.set defaultCfg (GlobalConfig.init defaultCfg)
          (some (ConfigOption.value fn))) = fn
    ∧ GlobalConfig.badResponseHandler defaultCfg
        (GlobalConfig.set defaultCfg
          (GlobalConfig.set defaultCfg (GlobalConfig.init defaultCfg)
            (some (ConfigOption.value fn)))
          (some ConfigOption.reset)) = defaultCfg.badResponseHandler
    ∧ (fn ≠ defaultCfg.badResponseHandler →
        GlobalConfig.badResponseHandler defaultCfg
          (GlobalConfig.set defaultCfg
            (GlobalConfig.set defaultCfg (GlobalConfig.init defaultCfg)
              (some (ConfigOption.value fn)))
            (some ConfigOption.reset)) ≠ fn) :=
  ⟨rfl, rfl, fun hne heq => hne heq.symm⟩

/-- C4 witness with natural-number handlers: default 0, override 1. -/
theorem c4_witness :
    GlobalConfig.badResponseHandler (Config.mk 0)
      (GlobalConfig.set (Config.mk 0)
        (GlobalConfig.set (Config.mk 0) (GlobalConfig.init (Config.mk 0))
          (some (ConfigOption.value 1)))
        (some ConfigOption.reset)) ≠ (1 : Nat) :=
  (c4_globalConfig_layering (Config.mk 0) 1).2.2 (by decide)

/-- C5: `readOnly` yields a non-writable readable descriptor, `writeOnly` the
inverse, and applying both in sequence yields the state of the one applied
last. -/
theorem c5_access_axes (f : AnyField) :
    AnyField.isWritable (AnyField.readOnly f) = false
    ∧ AnyField.isReadable (AnyField.readOnly f) = true
    ∧ AnyField.isWritable (AnyField.writeOnly f) = true
    ∧ AnyField.isReadable (AnyField.writeOnly f) = false
    ∧ AnyField.isWritable (AnyField.writeOnly (AnyField.readOnly f)) = true
    ∧ AnyField.isReadable (AnyField.writeOnly (AnyField.readOnly f)) = false
    ∧ AnyField.isWritable (AnyField.readOnly (AnyField.writeOnly f)) = false
    ∧ AnyField.isReadable (AnyField.readOnly (AnyField.writeOnly f)) = true :=
  ⟨rfl, rfl, rfl, rfl, rfl, rfl, rfl, rfl⟩

/-- C6: in the object-store embedding, a builder call on the descriptor at
address `i` leaves every existing descriptor (in particular the receiver
itself) unchanged, and returns a fresh address, distinct from every existing
one, holding the configured clone. -/
theorem c6_builders_never_mutate (op : BuilderOp) (store : List AnyField)
    (i : Nat) (f : AnyField) (k : Nat)
    (hf : store[i]? = some f) (hk : k < store.length) :
    (allocBuilderOp op store f).1[k]? = store[k]?
    ∧ (allocBuilderOp op store f).2 = store.length
    ∧ (allocBuilderOp op store f).1[(allocBuilderOp op store f).2]?
        = some (applyBuilderOp op f)
    ∧ i < (allocBuilderOp op store f).2 := by
  refine ⟨List.getElem?_append_left hk, rfl, ?_, ?_⟩
  · exact List.getElem?_concat_length store (applyBuilderOp op f)
  · exact (List.getElem?_eq_some_iff.mp hf).1

/-- C6 witness: a one-descriptor store, applying readOnly at address 0. -/
theorem c6_witness :
    (allocBuilderOp BuilderOp.readOnlyOp [stringFieldExample] stringFieldExample).1[0]?
      = [stringFieldExample][0]?
    ∧ (allocBuilderOp BuilderOp.readOnlyOp [stringFieldExample] stringFieldExample).2 = 1 := by
  have h := c6_builders_never_mutate BuilderOp.readOnlyOp [stringFieldExample] 0
    stringFieldExample 0 rfl (by decide)
  exact ⟨h.1, h.2.1⟩

/-- C7: reading `blankValue` after `withBlankValue v` returns exactly v,
whatever the default blank value of the concrete field type. -/
theorem c7_withBlankValue_read (f : AnyField) (v : JsValue) :
    AnyField.blankValue (AnyField.withBlankValue f v) = v := rfl

/-- C8: `isNew` is true exactly when the key property of the item is null. -/
theorem c8_isNew_iff_key_null (m : CollectionManager) (item : Item) :
    CollectionManager.isNew m item = true ↔ getProp item m.key = JsValue.null := by
  simp [CollectionManager.isNew]

/-- C8 witness on the examples from the spec. -/
theorem c8_witness :
    CollectionManager.isNew managerExample
      [("id", JsValue.null), ("name", JsValue.str "x")] = true
    ∧ CollectionManager.isNew managerExample
      [("id", JsValue.num 7), ("name", JsValue.str "x")] = false :=
  ⟨(c8_isNew_iff_key_null managerExample
      [("id", JsValue.null), ("name", JsValue.str "x")]).mpr (by decide),
   by decide⟩

/-- C9: whenever `packValue` succeeds, `pack` succeeds and returns a JSON
request body whose payload is exactly the packed value. -/
theorem c9_pack_wraps_packValue {T : Type} (m : ValueMapper T) (v : T)
    (p : JsValue) (h : m.packValue v = Except.ok p) :
    ValueMapper.pack m v = Except.ok { payload := p } := by
  simp [ValueMapper.pack, h, Except.map]

/-- C9 witness with the identity mapper. -/
theorem c9_witness :
    ValueMapper.pack idMapperExample (JsValue.num 3)
      = Except.ok { payload := JsValue.num 3 } :=
  c9_pack_wraps_packValue idMapperExample (JsValue.num 3) (JsValue.num 3) rfl

/-- C10: only undefined counts as absent; validating a non-optional field with
null, or any other value different from undefined, does not produce the
required-value-missing error but delegates to the configured checks. -/
theorem c10_null_is_not_absent (f : AnyField) (h : AnyField.isOptional f = false) :
    AnyField.validate f JsValue.null = f._checks.validate JsValue.null
    ∧ ∀ v : JsValue, v ≠ JsValue.undef →
        AnyField.validate f v = f._checks.validate v := by
  constructor
  · simp [AnyField.validate]
  · intro v hv
    simp [AnyField.validate, hv]

/-- C10 witness: a concrete required field delegates null and numeric values
to its checks. -/
theorem c10_witness :
    AnyField.validate stringFieldExample JsValue.null = ValidationResult.valid
    ∧ AnyField.validate stringFieldExample (JsValue.num 5) = ValidationResult.valid := by
  have h := c10_null_is_not_absent stringFieldExample rfl
  exact ⟨h.1.trans rfl, (h.2 (JsValue.num 5) (by decide)).trans rfl⟩
